import Mathlib

/-!
# Verification of the air-quality pipeline

A shallow embedding, in Lean 4, of the core of the `GitHubCopilot-WS1`
air-quality application: the `AirQualityService` data processing
(`_processAirQualityData`, `_classifyAQI`, `_findDominantPollutant`,
`_processPollutants`), the `GeocodingService.geocode` result handling, the
`CacheService` (TTL + LRU, memory tier and localStorage tier), and the
`APIFacade` orchestration (`getAirQualityData`, `_retryOperation`,
`_generateCacheKey`) together with the lifecycle events it publishes on the
`EventManager`.

Modelling conventions:
* JavaScript numbers are modelled as `ℚ` (no claim here depends on
  floating-point rounding or on `NaN`); JavaScript's falsiness of a numeric
  field (`undefined`, `null` or `0`) is modelled on `Option ℚ` explicitly.
* A JavaScript `Map` is modelled as a `List` of entries in insertion order
  (`Map.set` on a present key overwrites in place, otherwise appends;
  iteration follows insertion order).
* `Date.now()` is modelled as an explicit `now : Nat` parameter, held fixed
  for the duration of one operation.
* Promise resolution/rejection is modelled with `Except`; awaited backoff
  delays are recorded in a list rather than actually waited for.
* `parseFloat` of latitude/longitude strings and the `_extractAddress`
  enrichment are carried as raw strings: no claim concerns them.
-/

/-- The error objects thrown by the services, as a tagged variant.
`apiError` is the aggregate error thrown by `APIFacade._retryOperation`
(class `APIError(message, type, originalError)`); `typeError` models the
JavaScript `TypeError` raised when calling a method on `undefined`. -/
inductive JsError where
  | locationNotFound (message : String)
  | geocodingError (message : String)
  | airQualityDataError (message : String)
  | airQualityError (message : String)
  | apiError (message : String) (opType : String) (original : JsError)
  | typeError (message : String)
  deriving DecidableEq, Repr

/-- The `message` property of the thrown error object. -/
def JsError.message : JsError → String
  | .locationNotFound m => m
  | .geocodingError m => m
  | .airQualityDataError m => m
  | .airQualityError m => m
  | .apiError m _ _ => m
  | .typeError m => m

/-- JavaScript truthiness of an optional numeric field: `undefined`, `null`
and `0` are falsy, every other number is truthy. -/
def jsTruthy : Option ℚ → Bool
  | none => false
  | some q => q != 0

/-- JavaScript `a || b` on optional numeric fields (used for
`current.european_aqi || current.us_aqi || null`). -/
def jsOrQ (a b : Option ℚ) : Option ℚ :=
  if jsTruthy a then a else b

/-- JavaScript `s || d` on an optional string (used for
`units[key] || 'µg/m³'`): the empty string is falsy. -/
def jsOrStr (a : Option String) (d : String) : String :=
  match a with
  | none => d
  | some s => if s = "" then d else s

/-- The six pollutant keys of `pollutantMap` in `_processPollutants`,
in the fixed iteration order of the source object literal. -/
inductive PollutantKey where
  | pm10 | pm2_5 | carbon_monoxide | nitrogen_dioxide | sulphur_dioxide | ozone
  deriving DecidableEq, Repr

/-- The fixed iteration order of `Object.entries(pollutantMap)`. -/
def pollutantOrder : List PollutantKey :=
  [.pm10, .pm2_5, .carbon_monoxide, .nitrogen_dioxide, .sulphur_dioxide, .ozone]

/-- `name` field of `pollutantMap`. -/
def pollutantName : PollutantKey → String
  | .pm10 => "PM10"
  | .pm2_5 => "PM2.5"
  | .carbon_monoxide => "CO"
  | .nitrogen_dioxide => "NO₂"
  | .sulphur_dioxide => "SO₂"
  | .ozone => "O₃"

/-- `description` field of `pollutantMap`. -/
def pollutantDescription : PollutantKey → String
  | .pm10 => "Material Particulado 10μm"
  | .pm2_5 => "Material Particulado 2.5μm"
  | .carbon_monoxide => "Monóxido de Carbono"
  | .nitrogen_dioxide => "Dióxido de Nitrogênio"
  | .sulphur_dioxide => "Dióxido de Enxofre"
  | .ozone => "Ozônio"

/-- The WHO safety limits of `_findDominantPollutant`. -/
def safetyLimits : PollutantKey → ℚ
  | .pm10 => 50
  | .pm2_5 => 25
  | .carbon_monoxide => 10000
  | .nitrogen_dioxide => 40
  | .sulphur_dioxide => 125
  | .ozone => 120

/-- `AirQualityService._categorizePollutantLevel`: three thresholds per
pollutant, default `[25, 50, 100]`. -/
def categorizePollutantLevel (pollutant : PollutantKey) (value : ℚ) : String :=
  let limits : ℚ × ℚ × ℚ :=
    match pollutant with
    | .pm10 => (20, 50, 100)
    | .pm2_5 => (10, 25, 50)
    | .ozone => (60, 120, 180)
    | .nitrogen_dioxide => (20, 40, 80)
    | _ => (25, 50, 100)
  if value ≤ limits.1 then "low"
  else if value ≤ limits.2.1 then "moderate"
  else if value ≤ limits.2.2 then "high"
  else "very-high"

/-- A processed pollutant entry, as built by `_processPollutants`. -/
structure Pollutant where
  name : String
  description : String
  value : ℚ
  unit : String
  level : String
  deriving DecidableEq, Repr

/-- The `current` section of the raw air-quality API response. A field is
`none` when the API returned `undefined` or `null` for it. -/
structure CurrentData where
  time : String
  european_aqi : Option ℚ
  us_aqi : Option ℚ
  pm10 : Option ℚ
  pm2_5 : Option ℚ
  carbon_monoxide : Option ℚ
  nitrogen_dioxide : Option ℚ
  sulphur_dioxide : Option ℚ
  ozone : Option ℚ
  deriving DecidableEq, Repr

/-- Field access `current[key]` for the pollutant fields. -/
def CurrentData.field (current : CurrentData) : PollutantKey → Option ℚ
  | .pm10 => current.pm10
  | .pm2_5 => current.pm2_5
  | .carbon_monoxide => current.carbon_monoxide
  | .nitrogen_dioxide => current.nitrogen_dioxide
  | .sulphur_dioxide => current.sulphur_dioxide
  | .ozone => current.ozone

/-- `AirQualityService._processPollutants`: iterates `pollutantMap` in its
fixed order and keeps the keys whose `current[key]` is neither `undefined`
nor `null`. The resulting object's iteration order is the insertion order. -/
def processPollutants (current : CurrentData) (units : PollutantKey → Option String) :
    List (PollutantKey × Pollutant) :=
  pollutantOrder.filterMap fun key =>
    match current.field key with
    | none => none
    | some v => some (key,
        { name := pollutantName key
          description := pollutantDescription key
          value := v
          unit := jsOrStr (units key) "µg/m³"
          level := categorizePollutantLevel key v })

/-- The dominant pollutant record built by `_findDominantPollutant`:
the spread of the pollutant entry plus `key`, `exceedsLimit` and `ratio`. -/
structure DominantPollutant where
  key : PollutantKey
  pollutant : Pollutant
  exceedsLimit : Bool
  ratio : ℚ
  deriving DecidableEq, Repr

/-- Loop body of `_findDominantPollutant`: the `forEach` with the mutable
locals `dominant` and `highestRatio`, translated to explicit recursion. -/
def findDominantGo : List (PollutantKey × Pollutant) → Option DominantPollutant → ℚ →
    Option DominantPollutant
  | [], dominant, _ => dominant
  | (key, p) :: rest, dominant, highestRatio =>
      let limit := safetyLimits key
      if limit ≠ 0 ∧ 0 < p.value then
        let ratio := p.value / limit
        if highestRatio < ratio then
          findDominantGo rest (some ⟨key, p, decide (1 < ratio), ratio⟩) ratio
        else
          findDominantGo rest dominant highestRatio
      else
        findDominantGo rest dominant highestRatio

/-- `AirQualityService._findDominantPollutant`: `dominant` starts at `null`
and `highestRatio` at `0`. -/
def findDominantPollutant (pollutants : List (PollutantKey × Pollutant)) :
    Option DominantPollutant :=
  findDominantGo pollutants none 0

/-- The classification record returned by `_classifyAQI`. -/
structure Classification where
  level : String
  color : String
  description : String
  deriving DecidableEq, Repr

/-- `AirQualityService._classifyAQI`. The guard is JavaScript `if (!aqi)`,
so `undefined`, `null` and `0` all yield the `unknown` classification. -/
def classifyAQI (aqi : Option ℚ) (type : String) : Classification :=
  if jsTruthy aqi = false then
    ⟨"unknown", "#gray", "Dados não disponíveis"⟩
  else
    let v := aqi.getD 0
    if type = "european" then
      if v ≤ 20 then ⟨"good", "#00E400", "Boa"⟩
      else if v ≤ 40 then ⟨"fair", "#FFFF00", "Razoável"⟩
      else if v ≤ 60 then ⟨"moderate", "#FF7E00", "Moderada"⟩
      else if v ≤ 80 then ⟨"poor", "#FF0000", "Ruim"⟩
      else if v ≤ 100 then ⟨"very-poor", "#8F3F97", "Muito Ruim"⟩
      else ⟨"extremely-poor", "#7E0023", "Extremamente Ruim"⟩
    else
      if v ≤ 50 then ⟨"good", "#00E400", "Boa"⟩
      else if v ≤ 100 then ⟨"moderate", "#FFFF00", "Moderada"⟩
      else if v ≤ 150 then ⟨"unhealthy-sensitive", "#FF7E00", "Ruim para Grupos Sensíveis"⟩
      else if v ≤ 200 then ⟨"unhealthy", "#FF0000", "Ruim"⟩
      else if v ≤ 300 then ⟨"very-unhealthy", "#8F3F97", "Muito Ruim"⟩
      else ⟨"hazardous", "#7E0023", "Perigosa"⟩

/-- Health recommendation text, as in `_getHealthRecommendation`. -/
structure HealthRecommendation where
  general : String
  sensitive : String
  activities : String
  deriving DecidableEq, Repr

/-- `AirQualityService._getHealthRecommendation`: lookup by classification
level; any unhandled level (including `unknown`) falls back to the `good`
message set. Message texts are abbreviated to their first words: no claim
depends on the full strings. -/
def getHealthRecommendation (classification : Classification) : HealthRecommendation :=
  if classification.level = "good" then
    ⟨"A qualidade do ar é considerada satisfatória.", "Excelente.", "Todas as atividades."⟩
  else if classification.level = "fair" then
    ⟨"Qualidade do ar aceitável.", "Pessoas muito sensíveis devem considerar reduzir.", "Atividades normais."⟩
  else if classification.level = "moderate" then
    ⟨"Pessoas sensíveis podem experimentar sintomas.", "Grupos sensíveis devem limitar.", "Reduza atividades extenuantes."⟩
  else if classification.level = "poor" then
    ⟨"Todos podem começar a experimentar efeitos.", "Grupos sensíveis devem evitar.", "Evite exercícios ao ar livre."⟩
  else if classification.level = "very-poor" then
    ⟨"Alerta de saúde.", "Grupos sensíveis devem permanecer em ambientes fechados.", "Evite todas as atividades."⟩
  else if classification.level = "extremely-poor" then
    ⟨"Emergência de saúde.", "Todos devem permanecer em ambientes fechados.", "Permaneça em casa."⟩
  else
    ⟨"A qualidade do ar é considerada satisfatória.", "Excelente.", "Todas as atividades."⟩

/-- The raw air-quality API response body. -/
structure RawAQ where
  current : Option CurrentData
  current_units : PollutantKey → Option String
  latitude : ℚ
  longitude : ℚ
  elevation : ℚ
  timezone : String

/-- The `aqi` section of the processed air-quality data. -/
structure AqiInfo where
  value : Option ℚ
  type : String
  classification : String
  color : String
  description : String
  deriving DecidableEq, Repr

/-- The processed air-quality data, as returned by
`_processAirQualityData` (the `raw` echo of the response is not carried). -/
structure ProcessedAQ where
  aqi : AqiInfo
  pollutants : List (PollutantKey × Pollutant)
  dominantPollutant : Option DominantPollutant
  healthRecommendation : HealthRecommendation
  timestamp : String
  timezone : String
  latitude : ℚ
  longitude : ℚ
  elevation : ℚ
  deriving DecidableEq, Repr

/-- `AirQualityService._processAirQualityData`, with `current` the
`rawData.current` section (the caller has already checked its presence).
`primaryAQI` is `current.european_aqi || current.us_aqi || null` and
`aqiType` is `current.european_aqi ? 'european' : 'us'`: both decided by
JavaScript truthiness. -/
def processAirQualityData (rawData : RawAQ) (current : CurrentData) : ProcessedAQ :=
  let primaryAQI := jsOrQ current.european_aqi (jsOrQ current.us_aqi none)
  let aqiType := if jsTruthy current.european_aqi then "european" else "us"
  let pollutants := processPollutants current rawData.current_units
  let dominantPollutant := findDominantPollutant pollutants
  let classification := classifyAQI primaryAQI aqiType
  let healthRecommendation := getHealthRecommendation classification
  { aqi :=
      { value := primaryAQI
        type := aqiType
        classification := classification.level
        color := classification.color
        description := classification.description }
    pollutants
    dominantPollutant
    healthRecommendation
    timestamp := current.time
    timezone := rawData.timezone
    latitude := rawData.latitude
    longitude := rawData.longitude
    elevation := rawData.elevation }

/-- Outcome of one HTTP round-trip of the air-quality request: transport
failure, non-2xx status, or a parsed JSON body. -/
inductive AQResponse where
  | networkFailure (message : String)
  | httpError (status : Nat) (statusText : String)
  | ok (rawData : RawAQ)

/-- `AirQualityService.getAirQuality` for a given HTTP outcome: a non-2xx
status or a transport failure is wrapped into `AirQualityError`; a body
without a `current` section raises `AirQualityDataError` (rethrown as-is by
the catch); otherwise the processed data is returned. -/
def getAirQuality (response : AQResponse) : Except JsError ProcessedAQ :=
  match response with
  | .networkFailure m =>
      .error (.airQualityError ("Erro ao buscar dados de qualidade do ar: " ++ m))
  | .httpError status statusText =>
      .error (.airQualityError ("Erro ao buscar dados de qualidade do ar: Air Quality API returned "
        ++ toString status ++ ": " ++ statusText))
  | .ok rawData =>
      match rawData.current with
      | none => .error (.airQualityDataError "Dados de qualidade do ar não disponíveis para esta localização")
      | some current => .ok (processAirQualityData rawData current)

/-- One candidate object of the geocoding JSON array (numeric fields kept
as the raw strings the API returns). -/
structure GeoCandidate where
  lat : String
  lon : String
  display_name : String
  deriving DecidableEq, Repr

/-- Outcome of one HTTP round-trip of the geocoding request. -/
inductive GeoResponse where
  | networkFailure (message : String)
  | httpError (status : Nat) (statusText : String)
  | ok (data : List GeoCandidate)

/-- The location object returned by `GeocodingService.geocode` (the
`_extractAddress`, bounding-box and importance enrichment is not carried:
no claim concerns it). -/
structure GeoResult where
  lat : String
  lon : String
  display_name : String
  deriving DecidableEq, Repr

/-- `GeocodingService.geocode` for a given HTTP outcome: an empty candidate
array raises `LocationNotFoundError` (rethrown as-is by the catch); a
non-2xx status or a transport failure is wrapped into `GeocodingError`;
otherwise the first candidate is returned. -/
def geocode (city state country : String) (response : GeoResponse) : Except JsError GeoResult :=
  match response with
  | .networkFailure m =>
      .error (.geocodingError ("Erro ao buscar localização: " ++ m))
  | .httpError status statusText =>
      .error (.geocodingError ("Erro ao buscar localização: Geocoding API returned "
        ++ toString status ++ ": " ++ statusText))
  | .ok [] =>
      .error (.locationNotFound ("Localização não encontrada: " ++ city ++ ", " ++ state ++ ", " ++ country))
  | .ok (location :: _) =>
      .ok { lat := location.lat, lon := location.lon, display_name := location.display_name }

/-- A cache entry as built by `CacheService.set` (the `cacheItem` object). -/
structure CacheItem (δ : Type) where
  key : String
  data : δ
  createdAt : Nat
  expiresAt : Nat
  accessCount : Nat
  lastAccessed : Nat
  deriving DecidableEq, Repr

/-- The `CacheService` configuration (`this.config`). -/
structure CacheConfig where
  defaultTTL : Nat := 15 * 60 * 1000
  maxMemoryItems : Nat := 100
  storagePfx : String := "air_quality_cache_"
  enableLocalStorage : Bool := true
  enableMemoryCache : Bool := true
  deriving DecidableEq, Repr

/-- The mutable state of a `CacheService` instance: the in-memory `Map`
(insertion order) and the `localStorage` entries with this service's
prefix (each holding the JSON-serialised item, modelled structurally). -/
structure CacheState (δ : Type) where
  memoryCache : List (CacheItem δ)
  localStore : List (String × CacheItem δ)
  deriving DecidableEq, Repr

/-- The empty cache state (fresh service instance, empty storage). -/
def CacheState.empty {δ : Type} : CacheState δ := ⟨[], []⟩

/-- `Map.get` on the memory cache: the entry stored under `key`. -/
def memFind {δ : Type} (items : List (CacheItem δ)) (key : String) : Option (CacheItem δ) :=
  items.find? (fun item => item.key = key)

/-- `Map.has` on the memory cache. -/
def memHas {δ : Type} (items : List (CacheItem δ)) (key : String) : Bool :=
  items.any (fun item => item.key = key)

/-- `Map.set` on the memory cache: overwrite in place when the key is
present, append otherwise. -/
def memSet {δ : Type} (items : List (CacheItem δ)) (key : String) (item : CacheItem δ) :
    List (CacheItem δ) :=
  if memHas items key then
    items.map (fun it => if it.key = key then item else it)
  else
    items ++ [item]

/-- `Map.delete` on the memory cache. -/
def memDelete {δ : Type} (items : List (CacheItem δ)) (key : String) : List (CacheItem δ) :=
  items.filter (fun item => item.key ≠ key)

/-- `localStorage.getItem`. -/
def storeFind {δ : Type} (store : List (String × CacheItem δ)) (storageKey : String) :
    Option (CacheItem δ) :=
  (store.find? (fun e => e.1 = storageKey)).map Prod.snd

/-- `localStorage.setItem`. -/
def storeSet {δ : Type} (store : List (String × CacheItem δ)) (storageKey : String)
    (item : CacheItem δ) : List (String × CacheItem δ) :=
  if store.any (fun e => e.1 = storageKey) then
    store.map (fun e => if e.1 = storageKey then (storageKey, item) else e)
  else
    store ++ [(storageKey, item)]

/-- `localStorage.removeItem`. -/
def storeRemove {δ : Type} (store : List (String × CacheItem δ)) (storageKey : String) :
    List (String × CacheItem δ) :=
  store.filter (fun e => e.1 ≠ storageKey)

/-- `CacheService._isExpired`: `Date.now() > cacheItem.expiresAt`. -/
def isExpired {δ : Type} (now : Nat) (item : CacheItem δ) : Bool :=
  now > item.expiresAt

/-- The scan of `CacheService._evictLeastRecentlyUsed`: `oldestTime` starts
at `Date.now()` and `oldestKey` at `null`; an entry is selected only when
its `lastAccessed` is strictly below the running minimum, so ties keep the
earlier entry and entries not strictly older than `now` are never picked. -/
def findLRUGo {δ : Type} : List (CacheItem δ) → Option String → Nat → Option String
  | [], oldestKey, _ => oldestKey
  | item :: rest, oldestKey, oldestTime =>
      if item.lastAccessed < oldestTime then
        findLRUGo rest (some item.key) item.lastAccessed
      else
        findLRUGo rest oldestKey oldestTime

/-- `CacheService._evictLeastRecentlyUsed`: delete the selected key, if any. -/
def evictLeastRecentlyUsed {δ : Type} (now : Nat) (items : List (CacheItem δ)) :
    List (CacheItem δ) :=
  match findLRUGo items none now with
  | none => items
  | some oldestKey => memDelete items oldestKey

/-- `CacheService.set`: builds the item with `expiresAt = now + (ttl ||
defaultTTL)` (a `ttl` of `0` is falsy and falls back to the default),
evicts before inserting when the memory tier is at or above capacity, and
writes the item to both enabled tiers. The returned boolean is the
source's return value. -/
def cacheSet {δ : Type} (cfg : CacheConfig) (now : Nat) (key : String) (data : δ)
    (ttl : Option Nat) (st : CacheState δ) : CacheState δ × Bool :=
  let effectiveTTL := match ttl with
    | none => cfg.defaultTTL
    | some t => if t = 0 then cfg.defaultTTL else t
  let item : CacheItem δ :=
    { key, data, createdAt := now, expiresAt := now + effectiveTTL
      accessCount := 0, lastAccessed := now }
  let memory :=
    if cfg.enableMemoryCache then
      let pruned :=
        if st.memoryCache.length ≥ cfg.maxMemoryItems then
          evictLeastRecentlyUsed now st.memoryCache
        else
          st.memoryCache
      memSet pruned key item
    else
      st.memoryCache
  let store :=
    if cfg.enableLocalStorage then
      storeSet st.localStore (cfg.storagePfx ++ key) item
    else
      st.localStore
  (⟨memory, store⟩, true)

/-- `CacheService.delete`: remove the key from both enabled tiers; the
boolean reports whether anything was removed. -/
def cacheDelete {δ : Type} (cfg : CacheConfig) (key : String) (st : CacheState δ) :
    CacheState δ × Bool :=
  let memRemoved := cfg.enableMemoryCache && memHas st.memoryCache key
  let memory := if memRemoved then memDelete st.memoryCache key else st.memoryCache
  let storageKey := cfg.storagePfx ++ key
  let storeRemoved := cfg.enableLocalStorage && (storeFind st.localStore storageKey).isSome
  let store := if storeRemoved then storeRemove st.localStore storageKey else st.localStore
  (⟨memory, store⟩, memRemoved || storeRemoved)

/-- The resolution phase of `CacheService.get`: consult the memory tier
first; otherwise parse the localStorage entry and, when it is valid and
unexpired, reload it into the memory tier. Returns the item found (if
any) together with the possibly-updated state. -/
def cacheLookup {δ : Type} (cfg : CacheConfig) (now : Nat) (key : String) (st : CacheState δ) :
    Option (CacheItem δ) × CacheState δ :=
  if cfg.enableMemoryCache && memHas st.memoryCache key then
    (memFind st.memoryCache key, st)
  else if cfg.enableLocalStorage then
    match storeFind st.localStore (cfg.storagePfx ++ key) with
    | none => (none, st)
    | some item =>
        if cfg.enableMemoryCache && !isExpired now item then
          (some item, ⟨memSet st.memoryCache key item, st.localStore⟩)
        else
          (some item, st)
  else
    (none, st)

/-- `CacheService.get`: after resolution, a missing or expired item yields
`null` (an expired item is deleted from both tiers as a side effect);
a hit mutates the found item's `accessCount` and `lastAccessed` in place
(visible in the memory tier, which holds the same object, but not in the
serialised localStorage copy) and returns the stored data. -/
def cacheGet {δ : Type} (cfg : CacheConfig) (now : Nat) (key : String) (st : CacheState δ) :
    Option δ × CacheState δ :=
  match cacheLookup cfg now key st with
  | (none, st1) => (none, st1)
  | (some item, st1) =>
      if isExpired now item then
        (none, (cacheDelete cfg key st1).1)
      else
        let touched := { item with accessCount := item.accessCount + 1, lastAccessed := now }
        let memory :=
          if cfg.enableMemoryCache && memHas st1.memoryCache key then
            memSet st1.memoryCache key touched
          else
            st1.memoryCache
        (some item.data, ⟨memory, st1.localStore⟩)

/-- The observable outcome of one `_retryOperation` call: how many times
the operation was invoked, the backoff delays awaited between attempts
(in order), and the settled result. -/
structure RetryRun (α : Type) where
  attempts : Nat
  delays : List Nat
  result : Except JsError α
  deriving Repr

/-- The `for (let attempt = 1; attempt <= retryAttempts; attempt++)` loop
of `APIFacade._retryOperation`, by recursion on the remaining attempts.
On failure of the last attempt the loop breaks and the aggregate
`APIError` is thrown, wrapping the last error and the operation type; the
base case with no attempt at all models `retryAttempts = 0`, where the
code reads `lastError.message` from `undefined` and raises a `TypeError`. -/
def retryGo {α : Type} (operation : Nat → Except JsError α) (operationType : String)
    (retryAttempts retryDelay : Nat) : Nat → Nat → RetryRun α
  | 0, _ =>
      ⟨0, [], .error (.typeError "Cannot read properties of undefined (reading message)")⟩
  | fuel + 1, attempt =>
      match operation attempt with
      | .ok value => ⟨1, [], .ok value⟩
      | .error e =>
          if fuel = 0 then
            ⟨1, [], .error (.apiError
              (operationType ++ " failed after " ++ toString retryAttempts
                ++ " attempts: " ++ e.message)
              operationType e)⟩
          else
            let rest := retryGo operation operationType retryAttempts retryDelay fuel (attempt + 1)
            ⟨1 + rest.attempts, retryDelay * attempt :: rest.delays, rest.result⟩

/-- `APIFacade._retryOperation`: run the operation up to
`retryAttempts` times, waiting `retryDelay * attempt` between attempts. -/
def retryOperation {α : Type} (operation : Nat → Except JsError α) (operationType : String)
    (retryAttempts retryDelay : Nat) : RetryRun α :=
  retryGo operation operationType retryAttempts retryDelay retryAttempts 1

/-- The lifecycle events `APIFacade.getAirQualityData` publishes on the
`EventManager` (payloads beyond the `source` of `DATA_RETRIEVED` are not
carried: no claim inspects them). -/
inductive Event where
  | loadingStart
  | loadingEnd
  | dataRetrieved (source : String)
  | dataCached
  | apiSuccess
  | apiError
  deriving DecidableEq, Repr

/-- The `APIFacade` configuration (`this.config`). -/
structure FacadeConfig where
  cacheEnabled : Bool := true
  cacheTTL : Nat := 15 * 60 * 1000
  retryAttempts : Nat := 3
  retryDelay : Nat := 1000
  deriving DecidableEq, Repr

/-- The argument of `getAirQualityData`: an object whose `city`, `state`
and `country` properties may each be missing (`undefined`). -/
structure LocationData where
  city : Option String
  state : Option String
  country : Option String
  deriving DecidableEq, Repr

/-- JavaScript `String.prototype.toLowerCase`, modelled as per-character
lowering (structural recursion so that concrete keys evaluate). -/
def jsToLower (s : String) : String :=
  ⟨s.data.map Char.toLower⟩

/-- `APIFacade._generateCacheKey`. -/
def generateCacheKey (city state country : String) : String :=
  "air_quality_" ++ jsToLower city ++ "_" ++ jsToLower state ++ "_" ++ jsToLower country

/-- The external world for one `getAirQualityData` call: the geocoding and
air-quality HTTP outcomes per attempt number (1-based), and the clock. -/
structure Env where
  geoResponses : Nat → GeoResponse
  aqResponses : Nat → AQResponse
  now : Nat

/-- The combined object returned by `getAirQualityData` (`completeData`).
The `timestamp` ISO string is modelled by the clock value. -/
structure CompleteData where
  city : String
  state : String
  country : String
  coordinates : GeoResult
  displayName : String
  airQuality : ProcessedAQ
  timestamp : Nat
  source : String
  deriving DecidableEq, Repr

/-- The observable outcome of one `getAirQualityData` call: the settled
promise, every event published on the bus in order, the cache state after
the call, how many geocoding and air-quality operations ran, and the
backoff delays awaited. -/
structure RunResult where
  result : Except JsError CompleteData
  events : List Event
  cache : CacheState CompleteData
  geoCalls : Nat
  aqCalls : Nat
  delays : List Nat

/-- `APIFacade.getAirQualityData`. Destructuring the argument and building
the cache key happen before the `try`, so a missing `city` or `state`
raises a `TypeError` with no event published and the cache untouched.
Inside the `try`: `API_LOADING_START`; on a cache hit, `DATA_RETRIEVED`
(source `cache`) and an explicit `API_LOADING_END`, then the `finally`
publishes `API_LOADING_END` again; on a miss the geocoding and air-quality
steps each run under `_retryOperation`, a success writes the cache and
publishes `DATA_CACHED` then `API_SUCCESS`, an error publishes `API_ERROR`
and rethrows, and the `finally` publishes `API_LOADING_END` either way. -/
def getAirQualityData (cfg : FacadeConfig) (ccfg : CacheConfig) (env : Env)
    (locationData : LocationData) (st : CacheState CompleteData) : RunResult :=
  match locationData.city, locationData.state with
  | none, _ =>
      ⟨.error (.typeError "Cannot read properties of undefined (reading toLowerCase)"),
        [], st, 0, 0, []⟩
  | some _, none =>
      ⟨.error (.typeError "Cannot read properties of undefined (reading toLowerCase)"),
        [], st, 0, 0, []⟩
  | some city, some state =>
      let country := locationData.country.getD "US"
      let cacheKey := generateCacheKey city state country
      let cacheOutcome :=
        if cfg.cacheEnabled then cacheGet ccfg env.now cacheKey st
        else (none, st)
      match cacheOutcome with
      | (some cachedData, st1) =>
          ⟨.ok cachedData,
            [.loadingStart, .dataRetrieved "cache", .loadingEnd, .loadingEnd],
            st1, 0, 0, []⟩
      | (none, st1) =>
          let geoRun := retryOperation
            (fun attempt => geocode city state country (env.geoResponses attempt))
            "geocoding" cfg.retryAttempts cfg.retryDelay
          match geoRun.result with
          | .error e =>
              ⟨.error e, [.loadingStart, .apiError, .loadingEnd],
                st1, geoRun.attempts, 0, geoRun.delays⟩
          | .ok coordinates =>
              let aqRun := retryOperation
                (fun attempt => getAirQuality (env.aqResponses attempt))
                "air-quality" cfg.retryAttempts cfg.retryDelay
              match aqRun.result with
              | .error e =>
                  ⟨.error e, [.loadingStart, .apiError, .loadingEnd],
                    st1, geoRun.attempts, aqRun.attempts, geoRun.delays ++ aqRun.delays⟩
              | .ok airQualityData =>
                  let completeData : CompleteData :=
                    { city, state, country, coordinates
                      displayName := coordinates.display_name
                      airQuality := airQualityData
                      timestamp := env.now
                      source := "api" }
                  if cfg.cacheEnabled then
                    let st2 := (cacheSet ccfg env.now cacheKey completeData
                      (some cfg.cacheTTL) st1).1
                    ⟨.ok completeData,
                      [.loadingStart, .dataCached, .apiSuccess, .loadingEnd],
                      st2, geoRun.attempts, aqRun.attempts, geoRun.delays ++ aqRun.delays⟩
                  else
                    ⟨.ok completeData,
                      [.loadingStart, .apiSuccess, .loadingEnd],
                      st1, geoRun.attempts, aqRun.attempts, geoRun.delays ++ aqRun.delays⟩

/-- Unrolling of the retry loop when every attempt up to `K` fails: the
loop performs exactly the remaining `fuel` attempts and settles on the
aggregate `APIError` wrapping the error of attempt `K`. -/
lemma retryGo_exhausts {α : Type} (operation : Nat → Except JsError α) (operationType : String)
    (K d : Nat) (errs : Nat → JsError) :
    ∀ fuel attempt, 1 ≤ fuel → fuel + attempt = K + 1 →
    (∀ i, attempt ≤ i → i ≤ K → operation i = .error (errs i)) →
    (retryGo operation operationType K d fuel attempt).attempts = fuel ∧
    (retryGo operation operationType K d fuel attempt).result = .error (.apiError
      (operationType ++ " failed after " ++ toString K ++ " attempts: " ++ (errs K).message)
      operationType (errs K)) := by
  intro fuel
  induction fuel with
  | zero => intro attempt h1 _ _; omega
  | succ f ih =>
      intro attempt _ hsum hop
      have hK : attempt ≤ K := by omega
      have hop1 : operation attempt = .error (errs attempt) := hop attempt le_rfl hK
      by_cases hf : f = 0
      · subst hf
        have hAK : attempt = K := by omega
        subst hAK
        simp [retryGo, hop1]
      · have hrest := ih (attempt + 1) (by omega) (by omega)
          (fun i hi1 hi2 => hop i (by omega) hi2)
        simp only [retryGo, hop1, if_neg hf]
        exact ⟨by simp [hrest.1]; omega, hrest.2⟩

/-- C3. For every operation that fails with some error on every attempt,
`_retryOperation` with a configured attempt count `K ≥ 1` invokes the
operation exactly `K` times — never more, never fewer — and then rejects
with the aggregate `APIError` that carries the operation type and wraps
the error of the last attempt. -/
theorem retryOperation_exhausts_attempts {α : Type} (operation : Nat → Except JsError α)
    (operationType : String) (K d : Nat) (hK : 1 ≤ K) (errs : Nat → JsError)
    (hop : ∀ i, 1 ≤ i → i ≤ K → operation i = .error (errs i)) :
    (retryOperation operation operationType K d).attempts = K ∧
    (retryOperation operation operationType K d).result = .error (.apiError
      (operationType ++ " failed after " ++ toString K ++ " attempts: " ++ (errs K).message)
      operationType (errs K)) :=
  retryGo_exhausts operation operationType K d errs K 1 hK (by omega) hop

/-- Witness for C3: a geocoding operation failing on all three default
attempts is invoked exactly three times and the aggregate error carries
the operation type and the third error. -/
theorem retryOperation_exhausts_attempts_witness :
    (retryOperation (fun i => (.error (.geocodingError (toString i)) : Except JsError Nat))
      "geocoding" 3 1000).attempts = 3 ∧
    (retryOperation (fun i => (.error (.geocodingError (toString i)) : Except JsError Nat))
      "geocoding" 3 1000).result = .error (.apiError
      ("geocoding" ++ " failed after " ++ toString 3 ++ " attempts: "
        ++ (JsError.geocodingError (toString 3)).message)
      "geocoding" (.geocodingError (toString 3))) :=
  retryOperation_exhausts_attempts (fun i => .error (.geocodingError (toString i)))
    "geocoding" 3 1000 (by omega) (fun i => .geocodingError (toString i))
    (fun _ _ _ => rfl)

/-- The European classification table exactly as the specification words
it: inclusive upper bounds 20, 40, 60, 80, 100, else extremely poor. -/
def specClassifyEuropean (aqi : ℚ) : String :=
  if aqi ≤ 20 then "good"
  else if aqi ≤ 40 then "fair"
  else if aqi ≤ 60 then "moderate"
  else if aqi ≤ 80 then "poor"
  else if aqi ≤ 100 then "very-poor"
  else "extremely-poor"

/-- The US classification table exactly as the specification words it:
inclusive upper bounds 50, 100, 150, 200, 300, else hazardous. -/
def specClassifyUS (aqi : ℚ) : String :=
  if aqi ≤ 50 then "good"
  else if aqi ≤ 100 then "moderate"
  else if aqi ≤ 150 then "unhealthy-sensitive"
  else if aqi ≤ 200 then "unhealthy"
  else if aqi ≤ 300 then "very-unhealthy"
  else "hazardous"

/-- Counterexample to C4: an `aqiValue` of `0` is not `null`, and the
European thresholds would classify it `good` (`0 ≤ 20`), yet
`_classifyAQI` classifies it `unknown`, because its guard is the JavaScript
falsiness test `if (!aqi)` rather than a null check. -/
theorem classifyAQI_zero_cex :
    (classifyAQI (some 0) "european").level = "unknown" ∧
    (some (0 : ℚ)) ≠ none ∧ specClassifyEuropean 0 = "good" := by
  refine ⟨rfl, by simp, by norm_num [specClassifyEuropean]⟩

/-- C4 as amended: for every nonzero (and non-null) `aqiValue` the
classification follows the inclusive upper-bound threshold tables of the
respective scale, and the classification is `unknown` exactly when
`aqiValue` is null **or zero** (JavaScript falsiness). -/
theorem classifyAQI_thresholds_amended :
    (∀ v : ℚ, v ≠ 0 → (classifyAQI (some v) "european").level = specClassifyEuropean v) ∧
    (∀ v : ℚ, v ≠ 0 → (classifyAQI (some v) "us").level = specClassifyUS v) ∧
    (∀ (aqi : Option ℚ) (type : String),
      (classifyAQI aqi type).level = "unknown" ↔ aqi = none ∨ aqi = some 0) := by
  refine ⟨fun v hv => ?_, fun v hv => ?_, fun aqi type => ?_⟩
  · have hb : (v != 0) = true := by simpa using hv
    simp only [classifyAQI, jsTruthy, hb, Bool.true_eq_false, if_false,
      Option.getD_some, if_true, specClassifyEuropean]
    split_ifs <;> rfl
  · have hb : (v != 0) = true := by simpa using hv
    have hus : ("us" = "european") = False := by simp
    simp only [classifyAQI, jsTruthy, hb, Bool.true_eq_false, if_false,
      Option.getD_some, hus, specClassifyUS]
    split_ifs <;> rfl
  · constructor
    · intro h
      by_contra hcon
      push_neg at hcon
      obtain ⟨hnone, hzero⟩ := hcon
      obtain ⟨v, hv⟩ := Option.ne_none_iff_exists'.mp hnone
      subst hv
      have hv0 : v ≠ 0 := fun h0 => hzero (by rw [h0])
      have hb : (v != 0) = true := by simpa using hv0
      revert h
      simp only [classifyAQI, jsTruthy, hb, Bool.true_eq_false, if_false,
        Option.getD_some]
      split_ifs <;> simp
    · rintro (h | h) <;> subst h <;> rfl

/-- Witness for C4's amended theorem: concrete nonzero values on both
scales, and the unknown classification at null and at zero. -/
theorem classifyAQI_thresholds_amended_witness :
    (classifyAQI (some 15) "european").level = specClassifyEuropean 15 ∧
    (classifyAQI (some 65) "us").level = specClassifyUS 65 ∧
    ((classifyAQI none "european").level = "unknown" ↔
      (none : Option ℚ) = none ∨ (none : Option ℚ) = some 0) :=
  ⟨classifyAQI_thresholds_amended.1 15 (by norm_num),
   classifyAQI_thresholds_amended.2.1 65 (by norm_num),
   classifyAQI_thresholds_amended.2.2 none "european"⟩

/-- A concrete raw response for the C5 counterexample: `european_aqi` is
present but `0`, `us_aqi` is `42`. -/
def cexCurrent : CurrentData :=
  { time := "2024-01-01T00:00"
    european_aqi := some 0
    us_aqi := some 42
    pm10 := none, pm2_5 := none, carbon_monoxide := none
    nitrogen_dioxide := none, sulphur_dioxide := none, ozone := none }

/-- The enclosing raw body for the C5 counterexample. -/
def cexRaw : RawAQ :=
  { current := some cexCurrent
    current_units := fun _ => none
    latitude := 1, longitude := 2, elevation := 3, timezone := "UTC" }

/-- Counterexample to C5: the European-scale field is present in the
response (with value `0`), yet the processed primary AQI is the US value
`42` on the `us` scale — `current.european_aqi || current.us_aqi || null`
prefers by JavaScript truthiness, not by field presence. -/
theorem primaryAQI_presence_cex :
    cexCurrent.european_aqi = some 0 ∧
    (processAirQualityData cexRaw cexCurrent).aqi.value = some 42 ∧
    (processAirQualityData cexRaw cexCurrent).aqi.type = "us" :=
  ⟨rfl, rfl, rfl⟩

/-- C5 as amended: the primary AQI value of the processed result is the
European-scale value when that field is truthy (present and nonzero), else
the US-scale value when truthy, else null — and the scale tag follows the
truthiness of the European field alone. -/
theorem primaryAQI_truthiness (rawData : RawAQ) (current : CurrentData) :
    (processAirQualityData rawData current).aqi.value =
      (if jsTruthy current.european_aqi then current.european_aqi
       else if jsTruthy current.us_aqi then current.us_aqi else none) ∧
    (processAirQualityData rawData current).aqi.type =
      (if jsTruthy current.european_aqi then "european" else "us") := by
  constructor
  · simp only [processAirQualityData, jsOrQ]
  · simp only [processAirQualityData]

/-- The `value / safetyLimit` ratio of a pollutant entry. -/
def pollutantRatio (kp : PollutantKey × Pollutant) : ℚ :=
  kp.2.value / safetyLimits kp.1

/-- Every safety limit of the reference table is positive. -/
lemma safetyLimits_pos (k : PollutantKey) : 0 < safetyLimits k := by
  cases k <;> norm_num [safetyLimits]

/-- Entries with non-positive value never change the loop state. -/
lemma findDominantGo_skip (ps : List (PollutantKey × Pollutant))
    (dominant : Option DominantPollutant) (r : ℚ)
    (h : ∀ kp ∈ ps, ¬ 0 < kp.2.value) :
    findDominantGo ps dominant r = dominant := by
  induction ps with
  | nil => rfl
  | cons kp rest ih =>
      obtain ⟨k, p⟩ := kp
      have hp : ¬ 0 < p.value := h (k, p) (List.mem_cons_self _ _)
      have hcond : ¬ (safetyLimits k ≠ 0 ∧ 0 < p.value) := fun hc => hp hc.2
      simp only [findDominantGo, if_neg hcond]
      exact ih (fun kp hkp => h kp (List.mem_cons_of_mem _ hkp))

/-- Full characterisation of the `_findDominantPollutant` loop: starting
from accumulator `(dominant, r)`, either no positive-value entry beats `r`
and the accumulator survives, or the result is built from the first entry
attaining the maximal ratio among those beating `r`. -/
lemma findDominantGo_spec (ps : List (PollutantKey × Pollutant)) :
    ∀ (dominant : Option DominantPollutant) (r : ℚ),
    (findDominantGo ps dominant r = dominant ∧
      ∀ kp ∈ ps, 0 < kp.2.value → pollutantRatio kp ≤ r)
    ∨ (∃ l1 ent l2, ps = l1 ++ ent :: l2 ∧
        findDominantGo ps dominant r =
          some ⟨ent.1, ent.2, decide (1 < pollutantRatio ent), pollutantRatio ent⟩ ∧
        0 < ent.2.value ∧ r < pollutantRatio ent ∧
        (∀ kp ∈ l1, 0 < kp.2.value → pollutantRatio kp < pollutantRatio ent) ∧
        (∀ kp ∈ l2, 0 < kp.2.value → pollutantRatio kp ≤ pollutantRatio ent)) := by
  induction ps with
  | nil => intro dominant r; exact Or.inl ⟨rfl, by simp⟩
  | cons kp rest ih =>
      intro dominant r
      obtain ⟨k, p⟩ := kp
      by_cases hp : 0 < p.value
      · have hcond : (safetyLimits k ≠ 0 ∧ 0 < p.value) :=
          ⟨ne_of_gt (safetyLimits_pos k), hp⟩
        by_cases hbeat : r < p.value / safetyLimits k
        · simp only [findDominantGo, if_pos hcond, if_pos hbeat]
          rcases ih (some ⟨k, p, decide (1 < p.value / safetyLimits k),
              p.value / safetyLimits k⟩) (p.value / safetyLimits k) with
            ⟨heq, hall⟩ | ⟨l1, ent, l2, hsplit, hres, hpos, hgt, hpre, hsuf⟩
          · refine Or.inr ⟨[], (k, p), rest, by simp, ?_, hp, hbeat, by simp, ?_⟩
            · rw [heq]; rfl
            · intro kp hkp hkpos
              exact hall kp hkp hkpos
          · refine Or.inr ⟨(k, p) :: l1, ent, l2, by rw [hsplit]; rfl, hres, hpos,
              lt_trans hbeat hgt, ?_, hsuf⟩
            intro kp hkp hkpos
            rcases List.mem_cons.mp hkp with hkp | hkp
            · subst hkp; exact hgt
            · exact hpre kp hkp hkpos
        · simp only [findDominantGo, if_pos hcond, if_neg hbeat]
          rcases ih dominant r with
            ⟨heq, hall⟩ | ⟨l1, ent, l2, hsplit, hres, hpos, hgt, hpre, hsuf⟩
          · refine Or.inl ⟨heq, ?_⟩
            intro kp hkp hkpos
            rcases List.mem_cons.mp hkp with hkp | hkp
            · subst hkp; exact le_of_not_lt hbeat
            · exact hall kp hkp hkpos
          · refine Or.inr ⟨(k, p) :: l1, ent, l2, by rw [hsplit]; rfl, hres, hpos, hgt, ?_, hsuf⟩
            intro kp hkp hkpos
            rcases List.mem_cons.mp hkp with hkp | hkp
            · subst hkp
              exact lt_of_le_of_lt (le_of_not_lt hbeat) hgt
            · exact hpre kp hkp hkpos
      · have hcond : ¬ (safetyLimits k ≠ 0 ∧ 0 < p.value) := fun hc => hp hc.2
        simp only [findDominantGo, if_neg hcond]
        rcases ih dominant r with
          ⟨heq, hall⟩ | ⟨l1, ent, l2, hsplit, hres, hpos, hgt, hpre, hsuf⟩
        · refine Or.inl ⟨heq, ?_⟩
          intro kp hkp hkpos
          rcases List.mem_cons.mp hkp with hkp | hkp
          · subst hkp; exact absurd hkpos hp
          · exact hall kp hkp hkpos
        · refine Or.inr ⟨(k, p) :: l1, ent, l2, by rw [hsplit]; rfl, hres, hpos, hgt, ?_, hsuf⟩
          intro kp hkp hkpos
          rcases List.mem_cons.mp hkp with hkp | hkp
          · subst hkp; exact absurd hkpos hp
          · exact hpre kp hkp hkpos

/-- Counterexample to C9: a pollutant map containing a known pollutant
(`pm10`, value `0`) yields a `null` dominant pollutant, although the claim
requires `null` only when no known pollutant is present — the loop guard
`pollutant.value > 0` skips non-positive readings. -/
theorem findDominantPollutant_zero_cex :
    findDominantPollutant
      [(.pm10, ⟨"PM10", "Material Particulado 10μm", 0, "µg/m³", "low"⟩)] = none ∧
    [((.pm10 : PollutantKey),
      (⟨"PM10", "Material Particulado 10μm", 0, "µg/m³", "low"⟩ : Pollutant))] ≠ [] :=
  ⟨rfl, by simp⟩

/-- C9 as amended: the dominant pollutant is the entry with the highest
`value / safetyLimit` ratio among the pollutants present **with strictly
positive value**, ties broken in favour of the first such entry in the
fixed iteration order, and it is `null` exactly when no pollutant with
positive value is present in the map. -/
theorem findDominantPollutant_amended (ps : List (PollutantKey × Pollutant)) :
    (findDominantPollutant ps = none ↔ ∀ kp ∈ ps, kp.2.value ≤ 0) ∧
    (∀ d, findDominantPollutant ps = some d →
      ∃ l1 l2, ps = l1 ++ (d.key, d.pollutant) :: l2 ∧
        0 < d.pollutant.value ∧
        d.ratio = d.pollutant.value / safetyLimits d.key ∧
        d.exceedsLimit = decide (1 < d.ratio) ∧
        (∀ kp ∈ l1, 0 < kp.2.value → kp.2.value / safetyLimits kp.1 < d.ratio) ∧
        (∀ kp ∈ l2, 0 < kp.2.value → kp.2.value / safetyLimits kp.1 ≤ d.ratio)) := by
  constructor
  · constructor
    · intro hnone kp hkp
      rcases findDominantGo_spec ps none 0 with ⟨_, hall⟩ | ⟨l1, ent, l2, _, hres, hpos, _, _, _⟩
      · by_contra hpv
        push_neg at hpv
        have hratio : pollutantRatio kp ≤ 0 := hall kp hkp hpv
        have : 0 < pollutantRatio kp :=
          div_pos hpv (safetyLimits_pos kp.1)
        exact absurd hratio (not_le.mpr this)
      · rw [findDominantPollutant] at hnone
        rw [hnone] at hres
        exact absurd hres (by simp)
    · intro hall
      exact findDominantGo_skip ps none 0 (fun kp hkp => not_lt.mpr (hall kp hkp))
  · intro d hd
    rw [findDominantPollutant] at hd
    rcases findDominantGo_spec ps none 0 with ⟨heq, _⟩ | ⟨l1, ent, l2, hsplit, hres, hpos, _, hpre, hsuf⟩
    · rw [heq] at hd; exact absurd hd (by simp)
    · rw [hres] at hd
      have hdent : d = ⟨ent.1, ent.2, decide (1 < pollutantRatio ent), pollutantRatio ent⟩ :=
        (Option.some_injective _ hd).symm
      subst hdent
      refine ⟨l1, l2, by rw [hsplit], hpos, rfl, rfl, ?_, ?_⟩
      · intro kp hkp hkpos
        exact hpre kp hkp hkpos
      · intro kp hkp hkpos
        exact hsuf kp hkp hkpos

/-- Witness for C9's amended theorem: a map whose only readings are
non-positive has a `null` dominant pollutant, obtained by applying the
theorem's characterisation at a concrete input. -/
theorem findDominantPollutant_amended_witness :
    findDominantPollutant
      [(.pm10, ⟨"PM10", "Material Particulado 10μm", -3, "µg/m³", "low"⟩),
       (.ozone, ⟨"O₃", "Ozônio", 0, "µg/m³", "low"⟩)] = none :=
  (findDominantPollutant_amended
    [(.pm10, ⟨"PM10", "Material Particulado 10μm", -3, "µg/m³", "low"⟩),
     (.ozone, ⟨"O₃", "Ozônio", 0, "µg/m³", "low"⟩)]).1.mpr (by
    intro kp hkp
    rcases List.mem_cons.mp hkp with h | h
    · subst h; norm_num
    · rcases List.mem_singleton.mp h with h
      subst h; norm_num)

/-- Full characterisation of the `_evictLeastRecentlyUsed` scan: starting
from candidate `oldestKey` and threshold `oldestTime`, either no entry is
strictly older than the threshold and the candidate survives, or the
result is the key of the first entry attaining the minimal
`lastAccessed`. -/
lemma findLRUGo_spec {δ : Type} (items : List (CacheItem δ)) :
    ∀ (oldestKey : Option String) (oldestTime : Nat),
    (findLRUGo items oldestKey oldestTime = oldestKey ∧
      ∀ it ∈ items, oldestTime ≤ it.lastAccessed)
    ∨ (∃ l1 it l2, items = l1 ++ it :: l2 ∧
        findLRUGo items oldestKey oldestTime = some it.key ∧
        it.lastAccessed < oldestTime ∧
        (∀ j ∈ l1, it.lastAccessed < j.lastAccessed) ∧
        (∀ j ∈ l2, it.lastAccessed ≤ j.lastAccessed)) := by
  induction items with
  | nil => intro ok t; exact Or.inl ⟨rfl, by simp⟩
  | cons item rest ih =>
      intro ok t
      by_cases hlt : item.lastAccessed < t
      · simp only [findLRUGo, if_pos hlt]
        rcases ih (some item.key) item.lastAccessed with
          ⟨heq, hall⟩ | ⟨l1, it, l2, hsplit, hres, hlt2, hpre, hsuf⟩
        · exact Or.inr ⟨[], item, rest, by simp, heq, hlt, by simp, hall⟩
        · refine Or.inr ⟨item :: l1, it, l2, by rw [hsplit]; rfl, hres,
            lt_trans hlt2 hlt, ?_, hsuf⟩
          intro j hj
          rcases List.mem_cons.mp hj with hj | hj
          · subst hj; exact hlt2
          · exact hpre j hj
      · simp only [findLRUGo, if_neg hlt]
        rcases ih ok t with
          ⟨heq, hall⟩ | ⟨l1, it, l2, hsplit, hres, hlt2, hpre, hsuf⟩
        · refine Or.inl ⟨heq, ?_⟩
          intro j hj
          rcases List.mem_cons.mp hj with hj | hj
          · subst hj; exact le_of_not_lt hlt
          · exact hall j hj
        · refine Or.inr ⟨item :: l1, it, l2, by rw [hsplit]; rfl, hres,
            hlt2, ?_, hsuf⟩
          intro j hj
          rcases List.mem_cons.mp hj with hj | hj
          · subst hj; exact lt_of_lt_of_le hlt2 (le_of_not_lt hlt)
          · exact hpre j hj

/-- Deleting the key of the marked entry from a key-unique memory cache
removes exactly that entry. -/
lemma memDelete_split {δ : Type} (l1 : List (CacheItem δ)) (it : CacheItem δ)
    (l2 : List (CacheItem δ))
    (hnodup : ((l1 ++ it :: l2).map (fun e => e.key)).Nodup) :
    memDelete (l1 ++ it :: l2) it.key = l1 ++ l2 := by
  have hmap := hnodup
  rw [List.map_append, List.map_cons, List.nodup_append] at hmap
  obtain ⟨_, hnd2, hdisj⟩ := hmap
  have hl1 : ∀ j ∈ l1, j.key ≠ it.key := by
    intro j hj heq
    exact hdisj (List.mem_map_of_mem _ hj) (by rw [heq]; exact List.mem_cons_self _ _)
  have hl2 : ∀ j ∈ l2, j.key ≠ it.key := by
    intro j hj heq
    have := (List.nodup_cons.mp hnd2).1
    exact this (heq ▸ List.mem_map_of_mem _ hj)
  simp only [memDelete, List.filter_append, List.filter_cons]
  have hself : (it.key ≠ it.key) = False := by simp
  rw [List.filter_eq_self.mpr (fun j hj => by simpa using hl1 j hj),
    List.filter_eq_self.mpr (fun j hj => by simpa using hl2 j hj)]
  simp

/-- `Map.set` grows the memory cache by at most one entry. -/
lemma memSet_length_le {δ : Type} (l : List (CacheItem δ)) (key : String)
    (item : CacheItem δ) : (memSet l key item).length ≤ l.length + 1 := by
  unfold memSet
  split
  · simp
  · simp

/-- Counterexample to C7: with capacity 2 and both resident entries last
accessed at the current clock value (`lastAccessed = now = 5`, as happens
when entries are written in the same millisecond), inserting a third key
evicts nothing — the scan of `_evictLeastRecentlyUsed` only considers
entries with `lastAccessed` strictly below `Date.now()` — and the size
grows to 3, violating both "exactly one entry is evicted" and
"size is at most N". -/
theorem cacheSet_no_evict_cex :
    (cacheSet { maxMemoryItems := 2 } 5 "c" (3 : Nat) none
        ⟨[⟨"a", 1, 5, 99, 0, 5⟩, ⟨"b", 2, 5, 99, 0, 5⟩], []⟩).1.memoryCache.map
        (fun it => it.key) = ["a", "b", "c"] ∧
    (cacheSet { maxMemoryItems := 2 } 5 "c" (3 : Nat) none
        ⟨[⟨"a", 1, 5, 99, 0, 5⟩, ⟨"b", 2, 5, 99, 0, 5⟩], []⟩).1.memoryCache.length = 3 ∧
    ({ maxMemoryItems := 2 } : CacheConfig).maxMemoryItems = 2 := by
  refine ⟨rfl, rfl, rfl⟩

/-- C7 as amended: for every `set` performed when the memory cache holds
exactly `N = maxMemoryItems` entries **at least one of which was last
accessed strictly before the current clock value**, exactly one entry —
the first one with the smallest `lastAccessedAt`, irrespective of TTL —
is evicted before insertion, and the size after the set is at most `N`.
(When every resident entry's `lastAccessed` equals or exceeds the clock,
nothing is evicted and the size exceeds `N`, as the counterexample
shows.) -/
theorem cacheSet_evicts_lru {δ : Type} (ccfg : CacheConfig) (now : Nat) (key : String)
    (data : δ) (ttl : Option Nat) (st : CacheState δ)
    (hmem : ccfg.enableMemoryCache = true)
    (hcap : st.memoryCache.length = ccfg.maxMemoryItems)
    (hnodup : (st.memoryCache.map (fun it => it.key)).Nodup)
    (hold : ∃ it ∈ st.memoryCache, it.lastAccessed < now) :
    ∃ l1 evicted l2 newItem,
      st.memoryCache = l1 ++ evicted :: l2 ∧
      (∀ j ∈ st.memoryCache, evicted.lastAccessed ≤ j.lastAccessed) ∧
      (cacheSet ccfg now key data ttl st).1.memoryCache = memSet (l1 ++ l2) key newItem ∧
      (cacheSet ccfg now key data ttl st).1.memoryCache.length ≤ ccfg.maxMemoryItems := by
  rcases findLRUGo_spec st.memoryCache none now with
    ⟨_, hall⟩ | ⟨l1, it, l2, hsplit, hres, _, hpre, hsuf⟩
  · obtain ⟨w, hw, hwlt⟩ := hold
    exact absurd (hall w hw) (not_le.mpr hwlt)
  · have hmin : ∀ j ∈ st.memoryCache, it.lastAccessed ≤ j.lastAccessed := by
      intro j hj
      rw [hsplit] at hj
      rcases List.mem_append.mp hj with hj | hj
      · exact le_of_lt (hpre j hj)
      · rcases List.mem_cons.mp hj with hj | hj
        · subst hj; exact le_rfl
        · exact hsuf j hj
    have hevict : evictLeastRecentlyUsed now st.memoryCache = l1 ++ l2 := by
      rw [evictLeastRecentlyUsed, hres]
      rw [hsplit] at hnodup ⊢
      exact memDelete_split l1 it l2 hnodup
    have hge : st.memoryCache.length ≥ ccfg.maxMemoryItems := le_of_eq hcap.symm
    have hlen : (cacheSet ccfg now key data ttl st).1.memoryCache =
        memSet (l1 ++ l2) key
          { key := key, data := data, createdAt := now
            expiresAt := now + (match ttl with
              | none => ccfg.defaultTTL
              | some t => if t = 0 then ccfg.defaultTTL else t)
            accessCount := 0, lastAccessed := now } := by
      simp only [cacheSet, hmem, if_pos hge, if_true, hevict]
    refine ⟨l1, it, l2, _, hsplit, hmin, hlen, ?_⟩
    rw [hlen]
    refine le_trans (memSet_length_le _ _ _) ?_
    have h2 : st.memoryCache.length = l1.length + l2.length + 1 := by
      rw [hsplit]
      simp [List.length_append]
      omega
    rw [List.length_append]
    omega

/-- Witness for C7's amended theorem: a capacity-2 cache whose entry `a`
was last accessed at time 3 and entry `b` at time 7; a set at time 10
evicts exactly the least-recently-used entry. -/
theorem cacheSet_evicts_lru_witness :
    (∃ it ∈ ([⟨"a", 1, 0, 99, 0, 3⟩, ⟨"b", 2, 0, 99, 0, 7⟩] : List (CacheItem Nat)),
      it.lastAccessed < 10) ∧
    (∃ l1 evicted l2 newItem,
      ([⟨"a", 1, 0, 99, 0, 3⟩, ⟨"b", 2, 0, 99, 0, 7⟩] : List (CacheItem Nat)) =
        l1 ++ evicted :: l2 ∧
      (∀ j ∈ ([⟨"a", 1, 0, 99, 0, 3⟩, ⟨"b", 2, 0, 99, 0, 7⟩] : List (CacheItem Nat)),
        evicted.lastAccessed ≤ j.lastAccessed) ∧
      (cacheSet { maxMemoryItems := 2 } 10 "c" (3 : Nat) none
        ⟨[⟨"a", 1, 0, 99, 0, 3⟩, ⟨"b", 2, 0, 99, 0, 7⟩], []⟩).1.memoryCache =
        memSet (l1 ++ l2) "c" newItem ∧
      (cacheSet { maxMemoryItems := 2 } 10 "c" (3 : Nat) none
        ⟨[⟨"a", 1, 0, 99, 0, 3⟩, ⟨"b", 2, 0, 99, 0, 7⟩], []⟩).1.memoryCache.length ≤
        ({ maxMemoryItems := 2 } : CacheConfig).maxMemoryItems) :=
  ⟨⟨⟨"a", 1, 0, 99, 0, 3⟩, by simp, by decide⟩,
    cacheSet_evicts_lru { maxMemoryItems := 2 } 10 "c" (3 : Nat) none
      ⟨[⟨"a", 1, 0, 99, 0, 3⟩, ⟨"b", 2, 0, 99, 0, 7⟩], []⟩
      rfl rfl (by simp)
      ⟨⟨"a", 1, 0, 99, 0, 3⟩, by simp, by decide⟩⟩

/-- After `Map.delete`, the memory cache no longer has the key. -/
lemma memHas_memDelete {δ : Type} (l : List (CacheItem δ)) (key : String) :
    memHas (memDelete l key) key = false := by
  simp [memHas, memDelete, List.any_eq_true, List.mem_filter]

/-- After `localStorage.removeItem`, the storage no longer has the key. -/
lemma storeFind_storeRemove {δ : Type} (s : List (String × CacheItem δ)) (k : String) :
    storeFind (storeRemove s k) k = none := by
  simp only [storeFind, storeRemove, Option.map_eq_none']
  rw [List.find?_eq_none]
  intro e he
  have := List.mem_filter.mp he
  simpa using this.2

/-- A key that resolves to nothing yields a `null` read. -/
lemma cacheGet_none_of_lookup_none {δ : Type} (cfg : CacheConfig) (now : Nat) (key : String)
    (st : CacheState δ) (h : (cacheLookup cfg now key st).1 = none) :
    (cacheGet cfg now key st).1 = none := by
  rcases hlk : cacheLookup cfg now key st with ⟨it?, st1⟩
  rw [hlk] at h
  simp at h
  subst h
  simp [cacheGet, hlk]

/-- After `CacheService.delete`, resolution finds nothing under the key in
either tier. -/
lemma cacheLookup_after_delete {δ : Type} (cfg : CacheConfig) (now' : Nat) (key : String)
    (st : CacheState δ) :
    (cacheLookup cfg now' key (cacheDelete cfg key st).1).1 = none := by
  have hmem : (cfg.enableMemoryCache &&
      memHas ((cacheDelete cfg key st).1).memoryCache key) = false := by
    by_cases hm : cfg.enableMemoryCache
    · by_cases hh : memHas st.memoryCache key
      · simp [cacheDelete, hm, hh, memHas_memDelete]
      · simp [cacheDelete, hm, hh]
    · simp [hm]
  have hstore : cfg.enableLocalStorage = true →
      storeFind ((cacheDelete cfg key st).1).localStore (cfg.storagePfx ++ key) = none := by
    intro hls
    by_cases hf : (storeFind st.localStore (cfg.storagePfx ++ key)).isSome
    · simp only [cacheDelete, hls, hf, Bool.and_true, Bool.true_and, if_true]
      exact storeFind_storeRemove _ _
    · simp only [cacheDelete, hls, hf, Bool.and_false, Bool.true_and, if_false]
      rw [← Option.not_isSome_iff_eq_none]
      simpa using hf
  by_cases hls : cfg.enableLocalStorage
  · simp only [cacheLookup, hmem, Bool.false_eq_true, if_false, hls, if_true,
      hstore hls]
  · simp only [cacheLookup, hmem, Bool.false_eq_true, if_false, hls]

/-- C8. `get(key)` returns the stored value exactly when resolution finds
an entry with `now ≤ expiresAt`; when the resolved entry is expired
(`now > expiresAt`), the read reports absent, the entry is removed as a
side effect, and a later read of the same key (with no intervening set,
at any later clock value) also reports absent. -/
theorem cacheGet_expiry {δ : Type} (cfg : CacheConfig) (now now' : Nat) (key : String)
    (st : CacheState δ) :
    (∀ v, (cacheGet cfg now key st).1 = some v ↔
      ∃ it, (cacheLookup cfg now key st).1 = some it ∧ now ≤ it.expiresAt ∧ v = it.data) ∧
    (∀ it, (cacheLookup cfg now key st).1 = some it → it.expiresAt < now →
      (cacheGet cfg now key st).1 = none ∧
      (cacheGet cfg now' key (cacheGet cfg now key st).2).1 = none) := by
  rcases hlk : cacheLookup cfg now key st with ⟨it?, st1⟩
  constructor
  · intro v
    cases it? with
    | none => simp [cacheGet, hlk]
    | some it =>
        by_cases hexp : isExpired now it
        · have hlt : it.expiresAt < now := by simpa [isExpired] using hexp
          simp only [cacheGet, hlk, hexp, if_true]
          constructor
          · intro h; exact absurd h (by simp)
          · rintro ⟨it2, hit2, hle, _⟩
            simp at hit2
            subst hit2
            omega
        · have hle : now ≤ it.expiresAt := by simpa [isExpired] using hexp
          simp only [cacheGet, hlk, hexp, if_false]
          constructor
          · intro h
            simp at h
            exact ⟨it, by simp, hle, h.symm⟩
          · rintro ⟨it2, hit2, _, hv⟩
            simp at hit2
            subst hit2
            simp [hv]
  · intro it hit hlt
    simp at hit
    subst hit
    have hexp : isExpired now it = true := by simp [isExpired]; omega
    have hget : cacheGet cfg now key st = (none, (cacheDelete cfg key st1).1) := by
      simp [cacheGet, hlk, hexp]
    refine ⟨by rw [hget], ?_⟩
    rw [hget]
    exact cacheGet_none_of_lookup_none cfg now' key _
      (cacheLookup_after_delete cfg now' key st1)

/-- Witness for C8: a memory-resident entry that expired at time 50 is
reported absent at time 100, and stays absent on a later read at
time 200. -/
theorem cacheGet_expiry_witness :
    (cacheGet {} 100 "k" (⟨[⟨"k", (7 : Nat), 0, 50, 0, 0⟩], []⟩ : CacheState Nat)).1 = none ∧
    (cacheGet {} 200 "k"
      (cacheGet {} 100 "k" (⟨[⟨"k", (7 : Nat), 0, 50, 0, 0⟩], []⟩ : CacheState Nat)).2).1 = none :=
  (cacheGet_expiry {} 100 200 "k" ⟨[⟨"k", (7 : Nat), 0, 50, 0, 0⟩], []⟩).2
    ⟨"k", (7 : Nat), 0, 50, 0, 0⟩ (by decide) (by decide)

/-- A read on the empty cache state misses and leaves the state empty. -/
lemma cacheGet_empty {δ : Type} (cfg : CacheConfig) (now : Nat) (key : String) :
    cacheGet cfg now key (CacheState.empty : CacheState δ) = (none, CacheState.empty) := by
  by_cases hls : cfg.enableLocalStorage <;>
    simp [cacheGet, cacheLookup, memHas, storeFind, CacheState.empty, hls]

/-- A fresh resolved entry yields a hit carrying the stored data. -/
lemma cacheGet_fst_of_lookup_fresh {δ : Type} (cfg : CacheConfig) (now : Nat) (key : String)
    (st : CacheState δ) (it : CacheItem δ)
    (hlk : (cacheLookup cfg now key st).1 = some it) (hfresh : now ≤ it.expiresAt) :
    (cacheGet cfg now key st).1 = some it.data := by
  rcases hpair : cacheLookup cfg now key st with ⟨it?, st1⟩
  rw [hpair] at hlk
  simp at hlk
  subst hlk
  have hexp : isExpired now it = false := by simp [isExpired]; omega
  simp [cacheGet, hpair, hexp]

/-- C10. A call whose location object lacks a `city` or a `state` property
fails with a `TypeError` raised while building the cache key, before the
`try` block is entered: no lifecycle event is published — not even
loading-start or loading-end — the cache is neither read nor written, and
no network operation runs. -/
theorem missing_field_no_effects (cfg : FacadeConfig) (ccfg : CacheConfig) (env : Env)
    (loc : LocationData) (st : CacheState CompleteData)
    (h : loc.city = none ∨ loc.state = none) :
    (∃ m, (getAirQualityData cfg ccfg env loc st).result = .error (.typeError m)) ∧
    (getAirQualityData cfg ccfg env loc st).events = [] ∧
    (getAirQualityData cfg ccfg env loc st).cache = st ∧
    (getAirQualityData cfg ccfg env loc st).geoCalls = 0 ∧
    (getAirQualityData cfg ccfg env loc st).aqCalls = 0 := by
  rcases loc with ⟨city, state, country⟩
  rcases h with h | h
  · simp only at h
    subst h
    exact ⟨⟨"Cannot read properties of undefined (reading toLowerCase)", rfl⟩, rfl, rfl, rfl, rfl⟩
  · simp only at h
    subst h
    cases city with
    | none =>
        exact ⟨⟨"Cannot read properties of undefined (reading toLowerCase)", rfl⟩, rfl, rfl, rfl, rfl⟩
    | some c =>
        exact ⟨⟨"Cannot read properties of undefined (reading toLowerCase)", rfl⟩, rfl, rfl, rfl, rfl⟩

/-- Witness for C10: a location object with no `city` property. -/
theorem missing_field_no_effects_witness :
    (∃ m, (getAirQualityData {} {} ⟨fun _ => .ok [], fun _ => .networkFailure "x", 0⟩
      ⟨none, some "SP", none⟩ CacheState.empty).result = .error (.typeError m)) ∧
    (getAirQualityData {} {} ⟨fun _ => .ok [], fun _ => .networkFailure "x", 0⟩
      ⟨none, some "SP", none⟩ CacheState.empty).events = [] ∧
    (getAirQualityData {} {} ⟨fun _ => .ok [], fun _ => .networkFailure "x", 0⟩
      ⟨none, some "SP", none⟩ CacheState.empty).cache = CacheState.empty ∧
    (getAirQualityData {} {} ⟨fun _ => .ok [], fun _ => .networkFailure "x", 0⟩
      ⟨none, some "SP", none⟩ CacheState.empty).geoCalls = 0 ∧
    (getAirQualityData {} {} ⟨fun _ => .ok [], fun _ => .networkFailure "x", 0⟩
      ⟨none, some "SP", none⟩ CacheState.empty).aqCalls = 0 :=
  missing_field_no_effects {} {} ⟨fun _ => .ok [], fun _ => .networkFailure "x", 0⟩
    ⟨none, some "SP", none⟩ CacheState.empty (Or.inl rfl)

/-- C6. When caching is enabled and the normalized cache key resolves to a
fresh (unexpired) entry, `getAirQualityData` publishes the
`DATA_RETRIEVED` event with source `cache` and resolves with the cached
value, performing zero geocoding operations and zero air-quality
operations. -/
theorem cache_hit_no_network (cfg : FacadeConfig) (ccfg : CacheConfig) (env : Env)
    (loc : LocationData) (st : CacheState CompleteData) (c s : String)
    (it : CacheItem CompleteData)
    (hc : loc.city = some c) (hs : loc.state = some s)
    (hen : cfg.cacheEnabled = true)
    (hlk : (cacheLookup ccfg env.now (generateCacheKey c s (loc.country.getD "US")) st).1
      = some it)
    (hfresh : env.now ≤ it.expiresAt) :
    (getAirQualityData cfg ccfg env loc st).result = .ok it.data ∧
    Event.dataRetrieved "cache" ∈ (getAirQualityData cfg ccfg env loc st).events ∧
    (getAirQualityData cfg ccfg env loc st).geoCalls = 0 ∧
    (getAirQualityData cfg ccfg env loc st).aqCalls = 0 := by
  rcases loc with ⟨city, state, country⟩
  simp only at hc hs
  subst hc
  subst hs
  simp only at hlk
  have hhit := cacheGet_fst_of_lookup_fresh ccfg env.now
    (generateCacheKey c s (country.getD "US")) st it hlk hfresh
  rcases hcg : cacheGet ccfg env.now (generateCacheKey c s (country.getD "US")) st with ⟨v?, st1⟩
  rw [hcg] at hhit
  simp only at hhit
  subst hhit
  simp [getAirQualityData, hen, hcg]

/-- A concrete cached payload used by the facade witnesses. -/
def witnessData : CompleteData :=
  { city := "Austin", state := "TX", country := "US"
    coordinates := ⟨"30.26", "-97.74", "Austin, Texas"⟩
    displayName := "Austin, Texas"
    airQuality :=
      { aqi := ⟨some 15, "european", "good", "#00E400", "Boa"⟩
        pollutants := []
        dominantPollutant := none
        healthRecommendation := ⟨"g", "s", "a"⟩
        timestamp := "t", timezone := "tz"
        latitude := 1, longitude := 2, elevation := 3 }
    timestamp := 5
    source := "api" }

/-- A memory-resident cache entry for the normalized Austin key, expiring
at time 999. -/
def witnessItem : CacheItem CompleteData :=
  ⟨"air_quality_austin_tx_us", witnessData, 0, 999, 0, 0⟩

/-- Cache state holding only the Austin entry. -/
def witnessHitState : CacheState CompleteData := ⟨[witnessItem], []⟩

/-- External world for the facade witnesses: geocoding always returns an
empty candidate array, the air-quality call always fails, clock at 100. -/
def witnessEnv : Env := ⟨fun _ => .ok [], fun _ => .networkFailure "down", 100⟩

/-- The Austin location query (country omitted, defaulting to `US`). -/
def witnessLoc : LocationData := ⟨some "Austin", some "TX", none⟩

/-- Witness for C6: at the concrete Austin cache hit, the call resolves
with the cached payload, publishes the cache-retrieval event, and performs
no network operation. -/
theorem cache_hit_no_network_witness :
    (getAirQualityData {} {} witnessEnv witnessLoc witnessHitState).result
      = .ok witnessItem.data ∧
    Event.dataRetrieved "cache" ∈
      (getAirQualityData {} {} witnessEnv witnessLoc witnessHitState).events ∧
    (getAirQualityData {} {} witnessEnv witnessLoc witnessHitState).geoCalls = 0 ∧
    (getAirQualityData {} {} witnessEnv witnessLoc witnessHitState).aqCalls = 0 :=
  cache_hit_no_network {} {} witnessEnv witnessLoc witnessHitState "Austin" "TX"
    witnessItem rfl rfl rfl (by decide) (by decide)

/-- Counterexample to C2: on a cache hit the `API_LOADING_END` event is
published twice — once explicitly before the early return and once by the
`finally` block — not exactly once. -/
theorem loadingEnd_twice_on_cache_hit_cex :
    ((getAirQualityData {} {} witnessEnv witnessLoc witnessHitState).events.count
      Event.loadingEnd) = 2 ∧
    (getAirQualityData {} {} witnessEnv witnessLoc witnessHitState).result.isOk = true := by
  have hhit : cacheGet ({} : CacheConfig) witnessEnv.now
      (generateCacheKey "Austin" "TX" "US") witnessHitState
      = (some witnessItem.data,
         ⟨[{ witnessItem with accessCount := 1, lastAccessed := 100 }], []⟩) := by decide
  constructor
  · simp [getAirQualityData, witnessLoc, hhit]
  · simp [getAirQualityData, witnessLoc, hhit, Except.isOk, Except.toBool]

/-- C2 as amended: for every call whose location has both `city` and
`state`, the `API_LOADING_END` event is published exactly once when the
cache misses (whether the call then succeeds or rejects) or when caching
is disabled, and exactly twice on a cache hit. -/
theorem loadingEnd_count_per_call (cfg : FacadeConfig) (ccfg : CacheConfig) (env : Env)
    (loc : LocationData) (st : CacheState CompleteData) (c s : String)
    (hc : loc.city = some c) (hs : loc.state = some s) :
    ((getAirQualityData cfg ccfg env loc st).events.count Event.loadingEnd) =
      (if cfg.cacheEnabled &&
          (cacheGet ccfg env.now (generateCacheKey c s (loc.country.getD "US")) st).1.isSome
        then 2 else 1) := by
  rcases loc with ⟨city, state, country⟩
  simp only at hc hs
  subst hc
  subst hs
  simp only [getAirQualityData]
  by_cases hen : cfg.cacheEnabled
  · rcases hcg : cacheGet ccfg env.now (generateCacheKey c s (country.getD "US")) st
      with ⟨v?, st1⟩
    simp only [hen, if_true, hcg, Bool.true_and]
    cases v? with
    | some d => rfl
    | none =>
        cases hgr : (retryOperation
            (fun attempt => geocode c s (country.getD "US") (env.geoResponses attempt))
            "geocoding" cfg.retryAttempts cfg.retryDelay).result with
        | error e => simp
        | ok coordinates =>
            cases har : (retryOperation
                (fun attempt => getAirQuality (env.aqResponses attempt))
                "air-quality" cfg.retryAttempts cfg.retryDelay).result with
            | error e => simp
            | ok aq => simp [hen]
  · simp only [hen, Bool.false_and, if_false, Bool.false_eq_true]
    cases hgr : (retryOperation
        (fun attempt => geocode c s (country.getD "US") (env.geoResponses attempt))
        "geocoding" cfg.retryAttempts cfg.retryDelay).result with
    | error e => simp
    | ok coordinates =>
        cases har : (retryOperation
            (fun attempt => getAirQuality (env.aqResponses attempt))
            "air-quality" cfg.retryAttempts cfg.retryDelay).result with
        | error e => simp
        | ok aq => simp [hen]

/-- Witness for C2's amended theorem at a concrete cache-miss input. -/
theorem loadingEnd_count_per_call_witness :
    ((getAirQualityData {} {} witnessEnv witnessLoc CacheState.empty).events.count
      Event.loadingEnd) =
      (if ({} : FacadeConfig).cacheEnabled &&
          (cacheGet {} witnessEnv.now
            (generateCacheKey "Austin" "TX" (witnessLoc.country.getD "US"))
            (CacheState.empty : CacheState CompleteData)).1.isSome
        then 2 else 1) :=
  loadingEnd_count_per_call {} {} witnessEnv witnessLoc CacheState.empty "Austin" "TX" rfl rfl

/-- Counterexample to C1: with the default configuration and a geocoding
service that returns an empty candidate array on every attempt, the call
performs three geocoding attempts (not one), waits the two backoff delays,
and rejects with the aggregate `APIError` — not with the bare
`LocationNotFound` error. -/
theorem retry_of_locationNotFound_cex :
    (getAirQualityData {} {} witnessEnv witnessLoc CacheState.empty).geoCalls = 3 ∧
    (getAirQualityData {} {} witnessEnv witnessLoc CacheState.empty).delays = [1000, 2000] ∧
    (getAirQualityData {} {} witnessEnv witnessLoc CacheState.empty).result =
      .error (.apiError
        "geocoding failed after 3 attempts: Localização não encontrada: Austin, TX, US"
        "geocoding"
        (.locationNotFound "Localização não encontrada: Austin, TX, US")) := by
  exact ⟨rfl, rfl, rfl⟩

/-- C1 as amended: `_retryOperation` applies the retry loop to **every**
error kind, `LocationNotFound` included. With the default configuration
(three attempts, 1000 ms base delay) and a geocoding service returning an
empty candidate array on every attempt, `getAirQualityData` on an empty
cache performs exactly three geocoding attempts, waits the linear backoff
delays 1000 ms and 2000 ms between them, and rejects with the aggregate
`APIError` of operation type `geocoding` wrapping the last
`LocationNotFound` error. -/
theorem locationNotFound_retried_aggregate (ccfg : CacheConfig) (env : Env)
    (loc : LocationData) (c s : String)
    (hc : loc.city = some c) (hs : loc.state = some s)
    (hgeo : ∀ i, env.geoResponses i = GeoResponse.ok []) :
    (getAirQualityData {} ccfg env loc CacheState.empty).geoCalls = 3 ∧
    (getAirQualityData {} ccfg env loc CacheState.empty).delays = [1000, 2000] ∧
    (getAirQualityData {} ccfg env loc CacheState.empty).result =
      .error (.apiError
        ("geocoding" ++ " failed after " ++ toString 3 ++ " attempts: "
          ++ ("Localização não encontrada: " ++ c ++ ", " ++ s ++ ", "
            ++ loc.country.getD "US"))
        "geocoding"
        (.locationNotFound ("Localização não encontrada: " ++ c ++ ", " ++ s ++ ", "
          ++ loc.country.getD "US"))) := by
  rcases loc with ⟨city, state, country⟩
  simp only at hc hs
  subst hc
  subst hs
  have hop : ∀ attempt, geocode c s (country.getD "US") (env.geoResponses attempt) =
      .error (.locationNotFound ("Localização não encontrada: " ++ c ++ ", " ++ s ++ ", "
        ++ country.getD "US")) := by
    intro attempt
    rw [hgeo attempt]
    rfl
  have hrun : retryOperation
      (fun attempt => geocode c s (country.getD "US") (env.geoResponses attempt))
      "geocoding" 3 1000 =
      ⟨3, [1000, 2000], .error (.apiError
        ("geocoding" ++ " failed after " ++ toString 3 ++ " attempts: "
          ++ ("Localização não encontrada: " ++ c ++ ", " ++ s ++ ", "
            ++ country.getD "US"))
        "geocoding"
        (.locationNotFound ("Localização não encontrada: " ++ c ++ ", " ++ s ++ ", "
          ++ country.getD "US")))⟩ := by
    simp only [retryOperation, retryGo, hop]
    norm_num [JsError.message]
  simp only [getAirQualityData, cacheGet_empty]
  rw [hrun]
  simp

/-- Witness for C1's amended theorem at the concrete Austin query. -/
theorem locationNotFound_retried_aggregate_witness :
    (getAirQualityData {} {} witnessEnv witnessLoc CacheState.empty).geoCalls = 3 ∧
    (getAirQualityData {} {} witnessEnv witnessLoc CacheState.empty).delays = [1000, 2000] ∧
    (getAirQualityData {} {} witnessEnv witnessLoc CacheState.empty).result =
      .error (.apiError
        ("geocoding" ++ " failed after " ++ toString 3 ++ " attempts: "
          ++ ("Localização não encontrada: " ++ "Austin" ++ ", " ++ "TX" ++ ", "
            ++ witnessLoc.country.getD "US"))
        "geocoding"
        (.locationNotFound ("Localização não encontrada: " ++ "Austin" ++ ", " ++ "TX" ++ ", "
          ++ witnessLoc.country.getD "US"))) :=
  locationNotFound_retried_aggregate {} witnessEnv witnessLoc "Austin" "TX" rfl rfl
    (fun _ => rfl)
